import Mathlib

/-!
Verification development for the enhanced-mcp-ssh-client repository.

We shallowly embed the two pieces of the program the checked properties
talk about:

* the security agent (`secagent.ts` / `src/unnamed/part_000`): the
  deny/allow regular-expression pattern sets and the control flow of
  `checkCommandSafety`, including the classifier retry loop;
* the session manager (`src/session.ts`): the session state, the
  operations `setConnectionInfo`, `addCommand`, `setCommandResult`,
  `getCheckpoint`, `restoreFromCheckpoint`, and the checkpoint
  serialization round trip.

JavaScript regular expressions are embedded as a small regex language
with an executable matcher based on Brzozowski derivatives.  An
unanchored JS `re.test(s)` is "some substring of `s` matches `re`",
which we express by a full match of `.*re.*` (with `.` standing for
truly any character, since that wrapper only models the choice of the
match's start and end positions).  Anchored patterns (`^...$`, as all
the allow patterns are) are full matches.
-/

/-! ## A regex language with an executable derivative-based matcher -/

/-- Regular expressions over `Char`, with character classes given as
boolean predicates (so that classes like `\w`, `\s`, `[a-zA-Z]` of the
source's JS regex literals embed directly). -/
inductive RE : Type where
  | emp  : RE
  | eps  : RE
  | chr  : (Char → Bool) → RE
  | cat  : RE → RE → RE
  | alt  : RE → RE → RE
  | star : RE → RE

/-- Does the regex accept the empty string? -/
def RE.nullable : RE → Bool
  | .emp => false
  | .eps => true
  | .chr _ => false
  | .cat a b => a.nullable && b.nullable
  | .alt a b => a.nullable || b.nullable
  | .star _ => true

/-- Smart concatenation: simplifies away `emp` and `eps` so derivative
terms stay small. -/
def RE.mkCat : RE → RE → RE
  | .emp, _ => .emp
  | .eps, b => b
  | _, .emp => .emp
  | a, .eps => a
  | a, b => .cat a b

/-- Smart alternation: simplifies away `emp`. -/
def RE.mkAlt : RE → RE → RE
  | .emp, b => b
  | a, .emp => a
  | a, b => .alt a b

/-- Brzozowski derivative of a regex with respect to one character. -/
def RE.deriv : RE → Char → RE
  | .emp, _ => .emp
  | .eps, _ => .emp
  | .chr p, c => if p c then .eps else .emp
  | .cat a b, c =>
      if a.nullable then .mkAlt (.mkCat (a.deriv c) b) (b.deriv c)
      else .mkCat (a.deriv c) b
  | .alt a b, c => .mkAlt (a.deriv c) (b.deriv c)
  | .star a, c => .mkCat (a.deriv c) (.star a)

/-- Full (anchored) match of a regex against a character list. -/
def matchRE (r : RE) (s : List Char) : Bool :=
  (s.foldl RE.deriv r).nullable

/-- Literal string regex. -/
def RE.lit (s : String) : RE :=
  s.data.foldr (fun c r => RE.cat (RE.chr (fun x => x == c)) r) RE.eps

/-- The regex `r+`. -/
def RE.plus1 (r : RE) : RE := RE.cat r (RE.star r)

/-- The regex `r?`. -/
def RE.opt (r : RE) : RE := RE.alt r RE.eps

/-- A character class accepting every character (used only to model the
choice of a substring match's start/end positions for unanchored
`test`). -/
def anyCh : RE := RE.chr (fun _ => true)

/-- JS `re.test(s)` for an unanchored `re`: some substring matches. -/
def testRE (r : RE) (s : String) : Bool :=
  matchRE (RE.cat (RE.star anyCh) (RE.cat r (RE.star anyCh))) s.data

/-- Anchored full match on a string (JS `^...$` pattern test). -/
def matchFull (r : RE) (s : String) : Bool := matchRE r s.data

/-! ## Character classes of the JS regexes -/

/-- Is the character's code point in the inclusive range `[lo, hi]`? -/
def inRange (c : Char) (lo hi : Nat) : Bool :=
  decide (lo ≤ c.toNat ∧ c.toNat ≤ hi)

/-- JS `\w`: `[A-Za-z0-9_]`. -/
def isWordCh (c : Char) : Bool :=
  inRange c 97 122 || inRange c 65 90 || inRange c 48 57 || c == '_'

/-- JS `\d`: `[0-9]`. -/
def isDigitCh (c : Char) : Bool := inRange c 48 57

/-- `[a-zA-Z]`. -/
def isAsciiAlphaCh (c : Char) : Bool := inRange c 97 122 || inRange c 65 90

/-- JS `\s`: space, tab, line terminators, and the Unicode space
separators recognized by ECMAScript. -/
def isSpaceCh (c : Char) : Bool :=
  c == ' ' || c == '\t' || c == '\n' || c.toNat == 11 || c.toNat == 12 ||
  c == '\r' || c.toNat == 0xa0 || c.toNat == 0x1680 ||
  inRange c 0x2000 0x200a || c.toNat == 0x2028 || c.toNat == 0x2029 ||
  c.toNat == 0x202f || c.toNat == 0x205f || c.toNat == 0x3000 ||
  c.toNat == 0xfeff

/-- JS `.` (no `s` flag): any character except a line terminator. -/
def isDotCh (c : Char) : Bool :=
  !(c == '\n' || c == '\r' || c.toNat == 0x2028 || c.toNat == 0x2029)

/-- JS `[\w\/._-]`: word characters, slash, dot, underscore, dash. -/
def isPathCh (c : Char) : Bool :=
  isWordCh c || c == '/' || c == '.' || c == '_' || c == '-'

def wCh : RE := RE.chr isWordCh
def sCh : RE := RE.chr isSpaceCh
def dCh : RE := RE.chr isDigitCh
def dotCh : RE := RE.chr isDotCh
def alphaCh : RE := RE.chr isAsciiAlphaCh
def pathCh : RE := RE.chr isPathCh
def sPlus : RE := RE.plus1 sCh
def sStar : RE := RE.star sCh

/-! ## The deny patterns of `secagent.isObviouslyUnsafe`

Source list `unsafe_patterns` (secagent.ts), in order:
1. `rm\s+(-[\w]+\s+)*\//`  — removing root or system directories
2. `chmod\s+777\b`         — overly permissive chmod
3. `mkfs`                  — formatting drives
4. `dd\s+if=.+of=\/dev`    — writing directly to devices
5. `:(){:|:&};:`           — fork bomb (note: by JS regex syntax this
   is the alternation of the literal `:{:` — via an empty group — and
   the literal `:&};:`)
6. `wget.+\|\s*sh`         — download piped to shell
7. `curl.+\|\s*sh`         — download piped to shell
8. `sudo\s+rm\s+-rf\s+\/\*` — dangerous sudo rm
-/

def denyRm : RE :=
  RE.cat (RE.lit "rm") (RE.cat sPlus
    (RE.cat (RE.star (RE.cat (RE.lit "-") (RE.cat (RE.plus1 wCh) sPlus)))
      (RE.lit "/")))

/-- The `chmod\s+777` core of deny pattern 2, before its `\b`. -/
def denyChmodCore : RE :=
  RE.cat (RE.lit "chmod") (RE.cat sPlus (RE.lit "777"))

/-- JS `/chmod\s+777\b/.test(s)`.  The trailing word boundary after the
digit `7` (a word character) holds exactly when the match is at the end
of the input or followed by a non-word character, so the unanchored
test is a full match of `.*chmod\s+777([^\w].*)?` with `.` any
character. -/
def testChmod777 (s : String) : Bool :=
  matchRE (RE.cat (RE.star anyCh) (RE.cat denyChmodCore
    (RE.alt RE.eps (RE.cat (RE.chr (fun c => !isWordCh c)) (RE.star anyCh)))))
    s.data

def denyMkfs : RE := RE.lit "mkfs"

def denyDd : RE :=
  RE.cat (RE.lit "dd") (RE.cat sPlus
    (RE.cat (RE.lit "if=") (RE.cat (RE.plus1 dotCh) (RE.lit "of=/dev"))))

def denyForkBomb : RE :=
  RE.alt (RE.lit ":\x7b:") (RE.lit ":&\x7d;:")

def denyWget : RE :=
  RE.cat (RE.lit "wget") (RE.cat (RE.plus1 dotCh)
    (RE.cat (RE.lit "|") (RE.cat sStar (RE.lit "sh"))))

def denyCurl : RE :=
  RE.cat (RE.lit "curl") (RE.cat (RE.plus1 dotCh)
    (RE.cat (RE.lit "|") (RE.cat sStar (RE.lit "sh"))))

def denySudoRm : RE :=
  RE.cat (RE.lit "sudo") (RE.cat sPlus
    (RE.cat (RE.lit "rm") (RE.cat sPlus
      (RE.cat (RE.lit "-rf") (RE.cat sPlus (RE.lit "/*"))))))

/-- `secagent.isObviouslyUnsafe`: `unsafe_patterns.some(p => p.test(command))`,
in source order. -/
def isObviouslyUnsafeCmd (command : String) : Bool :=
  testRE denyRm command || testChmod777 command || testRE denyMkfs command ||
  testRE denyDd command || testRE denyForkBomb command ||
  testRE denyWget command || testRE denyCurl command ||
  testRE denySudoRm command

/-! ## The allow patterns of `secagent.isStaticallySafe`

Source list `safe_commands` (secagent.ts), all anchored `^...$`, in
order: ls, pwd, echo, cd, cat, mkdir, cp, df, du, ps, grep, ping,
uname, whoami, date, apt. -/

/-- `^ls(\s+-[a-zA-Z]+)*$` -/
def allowLs : RE :=
  RE.cat (RE.lit "ls")
    (RE.star (RE.cat sPlus (RE.cat (RE.lit "-") (RE.plus1 alphaCh))))

/-- `^pwd$` -/
def allowPwd : RE := RE.lit "pwd"

/-- `^echo\s+[^|>;]*$` -/
def allowEcho : RE :=
  RE.cat (RE.lit "echo") (RE.cat sPlus
    (RE.star (RE.chr (fun c => !(c == '|' || c == '>' || c == ';')))))

/-- `^cd\s+[\w\/._-]+$` -/
def allowCd : RE := RE.cat (RE.lit "cd") (RE.cat sPlus (RE.plus1 pathCh))

/-- `^cat\s+[\w\/._-]+$` -/
def allowCat : RE := RE.cat (RE.lit "cat") (RE.cat sPlus (RE.plus1 pathCh))

/-- `^mkdir\s+-?p?\s+[\w\/._-]+$` -/
def allowMkdir : RE :=
  RE.cat (RE.lit "mkdir") (RE.cat sPlus
    (RE.cat (RE.opt (RE.lit "-")) (RE.cat (RE.opt (RE.lit "p"))
      (RE.cat sPlus (RE.plus1 pathCh)))))

/-- `^cp\s+-?r?\s+[\w\/._-]+\s+[\w\/._-]+$` -/
def allowCp : RE :=
  RE.cat (RE.lit "cp") (RE.cat sPlus
    (RE.cat (RE.opt (RE.lit "-")) (RE.cat (RE.opt (RE.lit "r"))
      (RE.cat sPlus (RE.cat (RE.plus1 pathCh)
        (RE.cat sPlus (RE.plus1 pathCh)))))))

/-- `^df\s+-[a-zA-Z]+$` -/
def allowDf : RE :=
  RE.cat (RE.lit "df") (RE.cat sPlus (RE.cat (RE.lit "-") (RE.plus1 alphaCh)))

/-- `^du\s+-[a-zA-Z]+$` -/
def allowDu : RE :=
  RE.cat (RE.lit "du") (RE.cat sPlus (RE.cat (RE.lit "-") (RE.plus1 alphaCh)))

/-- `^ps\s+[auxef]+$` -/
def allowPs : RE :=
  RE.cat (RE.lit "ps") (RE.cat sPlus
    (RE.plus1 (RE.chr (fun c =>
      c == 'a' || c == 'u' || c == 'x' || c == 'e' || c == 'f'))))

/-- `^grep\s+-?[a-zA-Z]*\s+"[^"]+"\s+[\w\/._-]+$` -/
def allowGrep : RE :=
  RE.cat (RE.lit "grep") (RE.cat sPlus
    (RE.cat (RE.opt (RE.lit "-")) (RE.cat (RE.star alphaCh)
      (RE.cat sPlus (RE.cat (RE.lit "\"")
        (RE.cat (RE.plus1 (RE.chr (fun c => !(c == '"'))))
          (RE.cat (RE.lit "\"") (RE.cat sPlus (RE.plus1 pathCh)))))))))

/-- `^ping\s+-c\s+\d+\s+[\w\.-]+$` -/
def allowPing : RE :=
  RE.cat (RE.lit "ping") (RE.cat sPlus
    (RE.cat (RE.lit "-c") (RE.cat sPlus
      (RE.cat (RE.plus1 dCh) (RE.cat sPlus
        (RE.plus1 (RE.chr (fun c => isWordCh c || c == '.' || c == '-'))))))))

/-- `^uname\s+-[a-zA-Z]+$` -/
def allowUname : RE :=
  RE.cat (RE.lit "uname")
    (RE.cat sPlus (RE.cat (RE.lit "-") (RE.plus1 alphaCh)))

/-- `^whoami$` -/
def allowWhoami : RE := RE.lit "whoami"

/-- `^date$` -/
def allowDate : RE := RE.lit "date"

/-- `^apt\s+(update|list|search\s+[\w-]+)$` -/
def allowApt : RE :=
  RE.cat (RE.lit "apt") (RE.cat sPlus
    (RE.alt (RE.lit "update") (RE.alt (RE.lit "list")
      (RE.cat (RE.lit "search") (RE.cat sPlus
        (RE.plus1 (RE.chr (fun c => isWordCh c || c == '-'))))))))

/-- The source's `safe_commands` list, in order. -/
def safe_commands : List RE :=
  [allowLs, allowPwd, allowEcho, allowCd, allowCat, allowMkdir, allowCp,
   allowDf, allowDu, allowPs, allowGrep, allowPing, allowUname,
   allowWhoami, allowDate, allowApt]

/-- `secagent.isStaticallySafe`: `safe_commands.some(p => p.test(command))`
(all patterns anchored, so `test` is a full match). -/
def isStaticallySafe (command : String) : Bool :=
  safe_commands.any (fun r => matchFull r command)

/-! ## The security agent's `checkCommandSafety`

The configuration object read from `secagentconfig.json` is compared
with `=== true` on each flag in the source, so each flag embeds as a
`Bool`.  The classifier interaction is nondeterministic from the
program's point of view; we embed it as an explicit environment:

* `availableModels` — the model names discovered at startup
  (`initializeAsync`; empty when listing failed);
* `attempts` — the outcome of each of the up to `MAX_RETRIES = 3`
  classifier attempts: `some resp` for a reply with response text
  `resp`, `none` for any caught failure (timeout of the race, transport
  error, malformed reply).

`checkCommandSafety` in the source catches every classifier error and
always returns a boolean, which the embedding reflects by being a total
function into `Bool`. -/

/-- The recognized keys of `secagentconfig.json` (spec §6). -/
structure SecPolicy where
  ENABLE_SECAGENT : Bool
  USE_STATIC_CHECKS_ONLY : Bool
  USE_LOCAL_LLM : Bool
  SECURITY_POLICY : String
deriving DecidableEq, Repr

/-- JS `String.prototype.trim` over the JS whitespace set, on a
character list. -/
def trimChars (s : List Char) : List Char :=
  ((s.dropWhile isSpaceCh).reverse.dropWhile isSpaceCh).reverse

/-- Is `pre` a prefix of `l`? -/
def isPreOf : List Char → List Char → Bool
  | [], _ => true
  | _ :: _, [] => false
  | a :: as, b :: bs => a == b && isPreOf as bs

/-- JS `String.prototype.includes` on character lists. -/
def hasSubstr (needle : List Char) : List Char → Bool
  | [] => isPreOf needle []
  | c :: rest => isPreOf needle (c :: rest) || hasSubstr needle rest

/-- The verdict the source extracts from a classifier reply:
`!response.trim().toUpperCase().includes('UNSAFE')` (ASCII upcasing). -/
def classifierVerdict (resp : String) : Bool :=
  !(hasSubstr "UNSAFE".data ((trimChars resp.data).map Char.toUpper))

/-- The retry loop of `checkCommandSafety` (source lines 94-139): each
attempt that throws is caught and retried; a reply ends the loop with
its verdict; after the last failed attempt the loop exits and the
function falls back to `isStaticallySafe`. -/
def runAttempts (attempts : List (Option String)) (command : String) : Bool :=
  match attempts with
  | [] => isStaticallySafe command
  | some resp :: _ => classifierVerdict resp
  | none :: rest => runAttempts rest command

/-- `secagent.checkCommandSafety`, with the classifier environment made
explicit.  Mirrors the source's gate order: disabled-agent early
return, deny-pattern check, static-only mode, local-LLM flag, empty
model list, then the retry loop. -/
def checkCommandSafety (cfg : SecPolicy) (availableModels : List String)
    (attempts : List (Option String)) (command : String) : Bool :=
  if cfg.ENABLE_SECAGENT ≠ true then true
  else if isObviouslyUnsafeCmd command then false
  else if cfg.USE_STATIC_CHECKS_ONLY = true then isStaticallySafe command
  else if cfg.USE_LOCAL_LLM ≠ true then isStaticallySafe command
  else if availableModels.length = 0 then isStaticallySafe command
  else runAttempts attempts command

/-- The fallback configuration installed by the `secagent` constructor
when reading or parsing `secagentconfig.json` throws (source lines
27-34): only `ENABLE_SECAGENT: false` and the `SECURITY_POLICY` string
are set, so the remaining flags read as not-`true`. -/
def constructorFallbackConfig : SecPolicy :=
  { ENABLE_SECAGENT := false
    USE_STATIC_CHECKS_ONLY := false
    USE_LOCAL_LLM := false
    SECURITY_POLICY := "Only \x27ls\x27 command is safe" }

/-- The `secagent` constructor's configuration loading: `some cfg` when
the file was read and parsed successfully, `none` when either threw. -/
def secagentInit : Option SecPolicy → SecPolicy
  | some cfg => cfg
  | none => constructorFallbackConfig

/-! ## The session manager (`src/session.ts`) -/

/-- The `result` payload of a `CommandInfo` record.  `exitCode` is a JS
number that is an integer for process exit codes; we embed it as `Int`. -/
structure CommandResult where
  exitCode : Int
  signal : String
  stdout : String
  stderr : String
  completedAt : String
deriving DecidableEq, Repr

/-- The source's `CommandInfo`: a history record, with `result`
optional (absent until completion is observed). -/
structure CommandInfo where
  command : String
  executedAt : String
  result : Option CommandResult
deriving DecidableEq, Repr

/-- The source's `ConnectionInfo`. -/
structure ConnectionInfo where
  host : String
  port : Int
  username : String
  connectedAt : String
deriving DecidableEq, Repr

/-- The source's `SessionCheckpoint`: optional connection info plus the
command history. -/
structure SessionCheckpoint where
  connectionInfo : Option ConnectionInfo
  commands : List CommandInfo
deriving DecidableEq, Repr

/-- The mutable state of a `sessionManager` instance: its two private
fields. -/
structure SessionState where
  connectionInfo : Option ConnectionInfo
  commands : List CommandInfo
deriving DecidableEq, Repr

namespace sessionManager

/-- `sessionManager.setConnectionInfo`. -/
def setConnectionInfo (st : SessionState) (info : ConnectionInfo) : SessionState :=
  { st with connectionInfo := some info }

/-- `sessionManager.addCommand`: pushes a new record with no result;
`now` stands for `new Date().toISOString()`. -/
def addCommand (st : SessionState) (command : String) (now : String) : SessionState :=
  { st with commands := st.commands ++ [{ command := command, executedAt := now, result := none }] }

/-- The list update performed by `sessionManager.setCommandResult`:
`findIndex` locates the first record (scanning from the front) whose
`command` field equals the given text, and only that record's `result`
is assigned; no match leaves the list unchanged. -/
def updateFirst (l : List CommandInfo) (command : String) (result : CommandResult) :
    List CommandInfo :=
  match l with
  | [] => []
  | c :: cs =>
      if c.command = command then { c with result := some result } :: cs
      else c :: updateFirst cs command result

/-- `sessionManager.setCommandResult`. -/
def setCommandResult (st : SessionState) (command : String) (result : CommandResult) :
    SessionState :=
  { st with commands := updateFirst st.commands command result }

/-- The index `findIndex(cmd => cmd.command === command)` would return
(as an `Option`): the first match from the front. -/
def findCmdIdx (l : List CommandInfo) (command : String) : Option Nat :=
  match l with
  | [] => none
  | c :: cs =>
      if c.command = command then some 0
      else (findCmdIdx cs command).map (· + 1)

/-- `sessionManager.getCheckpoint`. -/
def getCheckpoint (st : SessionState) : SessionCheckpoint :=
  { connectionInfo := st.connectionInfo, commands := st.commands }

/-- `sessionManager.restoreFromCheckpoint`: the connection info is
assigned only under `if (checkpoint.connectionInfo)`, so an absent one
leaves the prior value in place; the command list is assigned whenever
`checkpoint.commands` is an array (always, for a well-formed
checkpoint — note an empty JS array is truthy). -/
def restoreFromCheckpoint (st : SessionState) (cp : SessionCheckpoint) : SessionState :=
  let st1 :=
    match cp.connectionInfo with
    | some ci => { st with connectionInfo := some ci }
    | none => st
  { st1 with commands := cp.commands }

end sessionManager

/-! ## Checkpoint persistence (`saveCheckpoint` / `loadCheckpoint`)

`saveCheckpoint` is `JSON.stringify(checkpoint)` written to a file and
`loadCheckpoint` is `JSON.parse` of the file's text (the `as
SessionCheckpoint` cast performs no validation).  We embed the JSON
layer at the level of JSON values: `encodeCheckpoint` is the JSON value
`JSON.stringify` serializes (with `undefined`-valued optional
properties omitted, as `JSON.stringify` omits them), and
`decodeCheckpoint` reads a `SessionCheckpoint` off a JSON value the way
property accesses on the parsed object do, returning `none` where the
shape does not fit.  The text layer in between — that `JSON.parse`
applied to `JSON.stringify`'s output returns an equal JSON value — is
the JSON library's contract, outside this repository. -/

/-- JSON values.  Numbers are embedded as `Int`: the only numeric
fields of a checkpoint are `port` and `exitCode`, integers in every
well-formed value. -/
inductive Json : Type where
  | null : Json
  | bool : Bool → Json
  | num : Int → Json
  | str : String → Json
  | arr : List Json → Json
  | obj : List (String × Json) → Json

/-- Property access on a parsed JSON object: the value of the first
field named `k`, if any. -/
def getField (fields : List (String × Json)) (k : String) : Option Json :=
  match fields with
  | [] => none
  | (k0, v) :: rest => if k0 = k then some v else getField rest k

def asStr : Json → Option String
  | .str s => some s
  | _ => none

def asNum : Json → Option Int
  | .num n => some n
  | _ => none

/-- The JSON value of a `result` payload, field order as in the record. -/
def encodeResult (r : CommandResult) : Json :=
  .obj [("exitCode", .num r.exitCode), ("signal", .str r.signal),
        ("stdout", .str r.stdout), ("stderr", .str r.stderr),
        ("completedAt", .str r.completedAt)]

/-- The JSON value of a `CommandInfo`; an absent `result` produces no
`result` property (as `JSON.stringify` omits `undefined` members). -/
def encodeCommandInfo (c : CommandInfo) : Json :=
  .obj ([("command", .str c.command), ("executedAt", .str c.executedAt)] ++
    (match c.result with
     | none => []
     | some r => [("result", encodeResult r)]))

/-- The JSON value of a `ConnectionInfo`. -/
def encodeConnectionInfo (ci : ConnectionInfo) : Json :=
  .obj [("host", .str ci.host), ("port", .num ci.port),
        ("username", .str ci.username), ("connectedAt", .str ci.connectedAt)]

/-- The JSON value `saveCheckpoint` serializes: `connectionInfo` first
when present (object-literal insertion order in `getCheckpoint`),
omitted when absent, then `commands`. -/
def encodeCheckpoint (cp : SessionCheckpoint) : Json :=
  .obj ((match cp.connectionInfo with
         | none => []
         | some ci => [("connectionInfo", encodeConnectionInfo ci)]) ++
        [("commands", .arr (cp.commands.map encodeCommandInfo))])

/-- Read a `result` payload off a JSON value. -/
def decodeResult (j : Json) : Option CommandResult :=
  match j with
  | .obj f => do
      let ec ← (getField f "exitCode").bind asNum
      let sg ← (getField f "signal").bind asStr
      let so ← (getField f "stdout").bind asStr
      let se ← (getField f "stderr").bind asStr
      let ca ← (getField f "completedAt").bind asStr
      pure { exitCode := ec, signal := sg, stdout := so, stderr := se,
             completedAt := ca }
  | _ => none

/-- Read a `CommandInfo` off a JSON value; a missing `result` property
reads as `none`. -/
def decodeCommandInfo (j : Json) : Option CommandInfo :=
  match j with
  | .obj f => do
      let cmd ← (getField f "command").bind asStr
      let at0 ← (getField f "executedAt").bind asStr
      let res ←
        match getField f "result" with
        | none => some none
        | some rj => (decodeResult rj).map some
      pure { command := cmd, executedAt := at0, result := res }
  | _ => none

/-- Read a command list off JSON values, element by element. -/
def decodeCommands : List Json → Option (List CommandInfo)
  | [] => some []
  | j :: js => do
      let c ← decodeCommandInfo j
      let cs ← decodeCommands js
      pure (c :: cs)

/-- Read a `ConnectionInfo` off a JSON value. -/
def decodeConnectionInfo (j : Json) : Option ConnectionInfo :=
  match j with
  | .obj f => do
      let h ← (getField f "host").bind asStr
      let p ← (getField f "port").bind asNum
      let u ← (getField f "username").bind asStr
      let ca ← (getField f "connectedAt").bind asStr
      pure { host := h, port := p, username := u, connectedAt := ca }
  | _ => none

/-- Read a `SessionCheckpoint` off the JSON value `loadCheckpoint`
parses: an absent `connectionInfo` property reads as `none`, and
`commands` must be an array of well-formed records. -/
def decodeCheckpoint (j : Json) : Option SessionCheckpoint :=
  match j with
  | .obj f => do
      let ci ←
        match getField f "connectionInfo" with
        | none => some none
        | some cj => (decodeConnectionInfo cj).map some
      let cs ←
        match getField f "commands" with
        | some (.arr js) => decodeCommands js
        | _ => none
      pure { connectionInfo := ci, commands := cs }
  | _ => none

/-! ## Helper lemmas about `updateFirst` and `findCmdIdx` -/

open sessionManager

/-- `updateFirst` never changes the number of records. -/
theorem updateFirst_length (l : List CommandInfo) (cmd : String) (r : CommandResult) :
    (updateFirst l cmd r).length = l.length := by
  induction l with
  | nil => rfl
  | cons c cs ih =>
      by_cases hc : c.command = cmd <;> simp [updateFirst, hc, ih]

/-- When `findIndex` finds no match, `updateFirst` is the identity. -/
theorem updateFirst_of_findCmdIdx_none (l : List CommandInfo) (cmd : String)
    (r : CommandResult) (h : findCmdIdx l cmd = none) :
    updateFirst l cmd r = l := by
  induction l with
  | nil => rfl
  | cons c cs ih =>
      by_cases hc : c.command = cmd
      · simp [findCmdIdx, hc] at h
      · have hcs : findCmdIdx cs cmd = none := by
          simp [findCmdIdx, hc, Option.map_eq_none] at h
          exact h
        simp [updateFirst, hc, ih hcs]

/-- Any position other than the first match is untouched by `updateFirst`. -/
theorem updateFirst_get?_of_ne (l : List CommandInfo) (cmd : String) (r : CommandResult) :
    ∀ i : Nat, findCmdIdx l cmd ≠ some i →
      (updateFirst l cmd r)[i]? = l[i]? := by
  induction l with
  | nil => intro i _; rfl
  | cons c cs ih =>
      intro i hi
      by_cases hc : c.command = cmd
      · cases i with
        | zero => exact absurd (by simp [findCmdIdx, hc]) hi
        | succ j => simp [updateFirst, hc]
      · cases i with
        | zero => simp [updateFirst, hc]
        | succ j =>
            have hj : findCmdIdx cs cmd ≠ some j := by
              intro heq
              exact hi (by simp [findCmdIdx, hc, heq])
            simp [updateFirst, hc, ih j hj]

/-- `updateFirst` on a list whose earliest match is `c` rewrites exactly
that occurrence. -/
theorem updateFirst_append_first_match (pre : List CommandInfo) (c : CommandInfo)
    (post : List CommandInfo) (cmd : String) (r : CommandResult)
    (hpre : ∀ x ∈ pre, x.command ≠ cmd) (hc : c.command = cmd) :
    updateFirst (pre ++ c :: post) cmd r =
      pre ++ { c with result := some r } :: post := by
  induction pre with
  | nil => simp [updateFirst, hc]
  | cons p ps ih =>
      have hp : p.command ≠ cmd := hpre p (by simp)
      have hps : ∀ x ∈ ps, x.command ≠ cmd := fun x hx => hpre x (by simp [hx])
      simp [updateFirst, hp, ih hps]

/-! ## Claims about the session manager -/

/-- C2: the claim reads `setCommandResult` as attaching the result to
the MOST RECENT (latest-appended) record with the given command text.
With two pending `ls` records the source's `findIndex` scan attaches
the result to the first (earliest) record and leaves the latest record
untouched, so the claim is false. -/
theorem setCommandResult_most_recent_false :
    (setCommandResult
        { connectionInfo := none,
          commands := [{ command := "ls", executedAt := "t1", result := none },
                       { command := "ls", executedAt := "t2", result := none }] }
        "ls"
        { exitCode := 0, signal := "", stdout := "o", stderr := "", completedAt := "t3" }).commands
      = [{ command := "ls", executedAt := "t1",
           result := some { exitCode := 0, signal := "", stdout := "o", stderr := "",
                            completedAt := "t3" } },
         { command := "ls", executedAt := "t2", result := none }] := by
  decide

/-- C2 (amended): `setCommandResult` attaches the result to the
EARLIEST record whose command text equals the given command — the first
match scanning from the front — leaving every other record, including
any later duplicate, unchanged. -/
theorem setCommandResult_updates_earliest_match (st : SessionState) (cmd : String)
    (r : CommandResult) (pre : List CommandInfo) (c : CommandInfo)
    (post : List CommandInfo)
    (hsplit : st.commands = pre ++ c :: post)
    (hpre : ∀ x ∈ pre, x.command ≠ cmd)
    (hc : c.command = cmd) :
    (setCommandResult st cmd r).commands =
      pre ++ { c with result := some r } :: post := by
  show updateFirst st.commands cmd r = _
  rw [hsplit]
  exact updateFirst_append_first_match pre c post cmd r hpre hc

/-- Witness for the amended C2 at a state holding a non-matching record
followed by two duplicate `ls` records: the earlier duplicate receives
the result. -/
theorem setCommandResult_updates_earliest_match_witness :
    ({ connectionInfo := none,
       commands := [{ command := "pwd", executedAt := "t0", result := none },
                    { command := "ls", executedAt := "t1", result := none },
                    { command := "ls", executedAt := "t2", result := none }] }
      : SessionState).commands
      = [{ command := "pwd", executedAt := "t0", result := none }] ++
          { command := "ls", executedAt := "t1", result := none } ::
          [{ command := "ls", executedAt := "t2", result := none }] ∧
    (setCommandResult
        { connectionInfo := none,
          commands := [{ command := "pwd", executedAt := "t0", result := none },
                       { command := "ls", executedAt := "t1", result := none },
                       { command := "ls", executedAt := "t2", result := none }] }
        "ls"
        { exitCode := 0, signal := "", stdout := "o", stderr := "", completedAt := "t3" }).commands
      = [{ command := "pwd", executedAt := "t0", result := none }] ++
          { command := "ls", executedAt := "t1",
            result := some { exitCode := 0, signal := "", stdout := "o", stderr := "",
                             completedAt := "t3" } } ::
          [{ command := "ls", executedAt := "t2", result := none }] :=
  ⟨by decide,
   setCommandResult_updates_earliest_match
     { connectionInfo := none,
       commands := [{ command := "pwd", executedAt := "t0", result := none },
                    { command := "ls", executedAt := "t1", result := none },
                    { command := "ls", executedAt := "t2", result := none }] }
     "ls"
     { exitCode := 0, signal := "", stdout := "o", stderr := "", completedAt := "t3" }
     [{ command := "pwd", executedAt := "t0", result := none }]
     { command := "ls", executedAt := "t1", result := none }
     [{ command := "ls", executedAt := "t2", result := none }]
     (by decide) (by decide) (by decide)⟩

/-- C3: the claim says a record that already carries a result is never
changed by any later `addCommand`/`setCommandResult`/`setConnectionInfo`.
It is false: a second `setCommandResult` for the same command text finds
the same first matching record and overwrites its existing result. -/
theorem result_record_immutable_false :
    (setCommandResult
        { connectionInfo := none,
          commands := [{ command := "ls", executedAt := "t1",
                         result := some { exitCode := 0, signal := "", stdout := "",
                                          stderr := "", completedAt := "t2" } }] }
        "ls"
        { exitCode := 1, signal := "", stdout := "x", stderr := "", completedAt := "t3" }).commands
      ≠ [{ command := "ls", executedAt := "t1",
           result := some { exitCode := 0, signal := "", stdout := "", stderr := "",
                            completedAt := "t2" } }] := by
  decide

/-- C3 (amended): a record — with or without a result — is unchanged by
`setConnectionInfo` and `addCommand`, and is unchanged by
`setCommandResult` unless it is the earliest record matching the given
command text (in which case its result field is overwritten, even if
already present). -/
theorem result_record_frame (st : SessionState) (i : Nat) (c : CommandInfo)
    (newCmd now : String) (info : ConnectionInfo) (cmd : String) (r : CommandResult)
    (hget : st.commands[i]? = some c)
    (hidx : findCmdIdx st.commands cmd ≠ some i) :
    (addCommand st newCmd now).commands[i]? = some c ∧
    (setConnectionInfo st info).commands[i]? = some c ∧
    (setCommandResult st cmd r).commands[i]? = some c := by
  have hlt : i < st.commands.length := by
    by_contra h
    rw [List.getElem?_eq_none (Nat.le_of_not_lt h)] at hget
    exact Option.noConfusion hget
  refine ⟨?_, hget, ?_⟩
  · show (st.commands ++ _)[i]? = some c
    rw [List.getElem?_append, if_pos hlt]
    exact hget
  · show (updateFirst st.commands cmd r)[i]? = some c
    rw [updateFirst_get?_of_ne st.commands cmd r i hidx]
    exact hget

/-- Witness for the amended C3: a completed `ls` record survives an
`addCommand`, a `setConnectionInfo`, and a `setCommandResult` for a
different command text. -/
theorem result_record_frame_witness :
    ({ connectionInfo := none,
       commands := [{ command := "ls", executedAt := "t1",
                      result := some { exitCode := 0, signal := "", stdout := "",
                                       stderr := "", completedAt := "t2" } }] }
      : SessionState).commands[0]?
      = some { command := "ls", executedAt := "t1",
               result := some { exitCode := 0, signal := "", stdout := "", stderr := "",
                                completedAt := "t2" } } ∧
    findCmdIdx ({ connectionInfo := none,
                  commands := [{ command := "ls", executedAt := "t1",
                                 result := some { exitCode := 0, signal := "", stdout := "",
                                                  stderr := "", completedAt := "t2" } }] }
      : SessionState).commands "cat" ≠ some 0 ∧
    ((addCommand
        { connectionInfo := none,
          commands := [{ command := "ls", executedAt := "t1",
                         result := some { exitCode := 0, signal := "", stdout := "",
                                          stderr := "", completedAt := "t2" } }] }
        "pwd" "t9").commands[0]?
      = some { command := "ls", executedAt := "t1",
               result := some { exitCode := 0, signal := "", stdout := "", stderr := "",
                                completedAt := "t2" } } ∧
     (setConnectionInfo
        { connectionInfo := none,
          commands := [{ command := "ls", executedAt := "t1",
                         result := some { exitCode := 0, signal := "", stdout := "",
                                          stderr := "", completedAt := "t2" } }] }
        { host := "h", port := 22, username := "u", connectedAt := "t0" }).commands[0]?
      = some { command := "ls", executedAt := "t1",
               result := some { exitCode := 0, signal := "", stdout := "", stderr := "",
                                completedAt := "t2" } } ∧
     (setCommandResult
        { connectionInfo := none,
          commands := [{ command := "ls", executedAt := "t1",
                         result := some { exitCode := 0, signal := "", stdout := "",
                                          stderr := "", completedAt := "t2" } }] }
        "cat"
        { exitCode := 1, signal := "", stdout := "x", stderr := "",
          completedAt := "t3" }).commands[0]?
      = some { command := "ls", executedAt := "t1",
               result := some { exitCode := 0, signal := "", stdout := "", stderr := "",
                                completedAt := "t2" } }) :=
  ⟨by decide, by decide,
   result_record_frame
     { connectionInfo := none,
       commands := [{ command := "ls", executedAt := "t1",
                      result := some { exitCode := 0, signal := "", stdout := "",
                                       stderr := "", completedAt := "t2" } }] }
     0
     { command := "ls", executedAt := "t1",
       result := some { exitCode := 0, signal := "", stdout := "", stderr := "",
                        completedAt := "t2" } }
     "pwd" "t9"
     { host := "h", port := 22, username := "u", connectedAt := "t0" } "cat"
     { exitCode := 1, signal := "", stdout := "x", stderr := "", completedAt := "t3" }
     (by decide) (by decide)⟩

/-- C8: the claim says `restoreFromCheckpoint` replaces the connection
metadata wholesale, including the absent case.  It is false: the source
assigns `connectionInfo` only under `if (checkpoint.connectionInfo)`,
so restoring a checkpoint without connection info keeps the prior
state's connection info instead of clearing it. -/
theorem restore_wholesale_false :
    (restoreFromCheckpoint
        { connectionInfo := some { host := "h", port := 22, username := "u",
                                   connectedAt := "t0" },
          commands := [] }
        { connectionInfo := none, commands := [] }).connectionInfo
      ≠ ({ connectionInfo := none, commands := [] } : SessionCheckpoint).connectionInfo := by
  decide

/-- C8 (amended): `restoreFromCheckpoint` replaces the command list
wholesale with the checkpoint's list; the connection metadata is
replaced only when the checkpoint carries one, and is otherwise left at
the prior state's value. -/
theorem restore_effect (st : SessionState) (cp : SessionCheckpoint) :
    (restoreFromCheckpoint st cp).commands = cp.commands ∧
    (restoreFromCheckpoint st cp).connectionInfo =
      (match cp.connectionInfo with
       | some ci => some ci
       | none => st.connectionInfo) := by
  cases cp with
  | mk ci cs => cases ci <;> simp [restoreFromCheckpoint]

/-- C10: `setCommandResult` leaves the connection metadata and the
record count unchanged, touches no position other than the first match,
and is the identity when no record matches. -/
theorem setCommandResult_frame (st : SessionState) (cmd : String) (r : CommandResult)
    (i : Nat) (hidx : findCmdIdx st.commands cmd ≠ some i) :
    (setCommandResult st cmd r).connectionInfo = st.connectionInfo ∧
    (setCommandResult st cmd r).commands.length = st.commands.length ∧
    (setCommandResult st cmd r).commands[i]? = st.commands[i]? ∧
    (findCmdIdx st.commands cmd = none → setCommandResult st cmd r = st) := by
  refine ⟨rfl, updateFirst_length st.commands cmd r,
    updateFirst_get?_of_ne st.commands cmd r i hidx, fun hnone => ?_⟩
  show ({ st with commands := updateFirst st.commands cmd r } : SessionState) = st
  rw [updateFirst_of_findCmdIdx_none st.commands cmd r hnone]

/-- Witness for C10 at a one-record state and a command text that
matches nothing. -/
theorem setCommandResult_frame_witness :
    findCmdIdx ({ connectionInfo := none,
                  commands := [{ command := "pwd", executedAt := "t1", result := none }] }
      : SessionState).commands "ls" ≠ some 0 ∧
    ((setCommandResult
        { connectionInfo := none,
          commands := [{ command := "pwd", executedAt := "t1", result := none }] }
        "ls"
        { exitCode := 0, signal := "", stdout := "", stderr := "",
          completedAt := "t2" }).connectionInfo
      = ({ connectionInfo := none,
           commands := [{ command := "pwd", executedAt := "t1", result := none }] }
          : SessionState).connectionInfo ∧
     (setCommandResult
        { connectionInfo := none,
          commands := [{ command := "pwd", executedAt := "t1", result := none }] }
        "ls"
        { exitCode := 0, signal := "", stdout := "", stderr := "",
          completedAt := "t2" }).commands.length
      = ({ connectionInfo := none,
           commands := [{ command := "pwd", executedAt := "t1", result := none }] }
          : SessionState).commands.length ∧
     (setCommandResult
        { connectionInfo := none,
          commands := [{ command := "pwd", executedAt := "t1", result := none }] }
        "ls"
        { exitCode := 0, signal := "", stdout := "", stderr := "",
          completedAt := "t2" }).commands[0]?
      = ({ connectionInfo := none,
           commands := [{ command := "pwd", executedAt := "t1", result := none }] }
          : SessionState).commands[0]? ∧
     (findCmdIdx ({ connectionInfo := none,
                    commands := [{ command := "pwd", executedAt := "t1", result := none }] }
        : SessionState).commands "ls" = none →
      setCommandResult
        { connectionInfo := none,
          commands := [{ command := "pwd", executedAt := "t1", result := none }] }
        "ls"
        { exitCode := 0, signal := "", stdout := "", stderr := "",
          completedAt := "t2" }
      = { connectionInfo := none,
          commands := [{ command := "pwd", executedAt := "t1", result := none }] })) :=
  ⟨by decide,
   setCommandResult_frame
     { connectionInfo := none,
       commands := [{ command := "pwd", executedAt := "t1", result := none }] }
     "ls"
     { exitCode := 0, signal := "", stdout := "", stderr := "", completedAt := "t2" }
     0 (by decide)⟩

/-! ## Claims about the security agent -/

/-- C1: with the agent enabled, a command matching a deny pattern is
UNSAFE for every combination of the static-only and local-LLM flags,
every security-policy text, and every classifier environment: the
deny-pattern check runs before every other gate and cannot be bypassed. -/
theorem deny_pattern_cannot_be_bypassed (stat llm : Bool) (pol : String)
    (models : List String) (attempts : List (Option String)) (cmd : String)
    (hdeny : isObviouslyUnsafeCmd cmd = true) :
    checkCommandSafety
      { ENABLE_SECAGENT := true, USE_STATIC_CHECKS_ONLY := stat,
        USE_LOCAL_LLM := llm, SECURITY_POLICY := pol }
      models attempts cmd = false := by
  simp [checkCommandSafety, hdeny]

/-- Witness for C1 at the deny-matching command `sudo rm -rf /*`. -/
theorem deny_pattern_cannot_be_bypassed_witness :
    isObviouslyUnsafeCmd "sudo rm -rf /*" = true ∧
    checkCommandSafety
      { ENABLE_SECAGENT := true, USE_STATIC_CHECKS_ONLY := false,
        USE_LOCAL_LLM := true, SECURITY_POLICY := "p" }
      ["llama2"] [some "SAFE"] "sudo rm -rf /*" = false :=
  ⟨by decide,
   deny_pattern_cannot_be_bypassed false true "p" ["llama2"] [some "SAFE"]
     "sudo rm -rf /*" (by decide)⟩

/-- C4: the claim says that in static-only mode a command is SAFE iff
it matches an allow pattern.  It is false: `echo mkfs` matches the
allow pattern `^echo\s+[^|>;]*$`, yet the deny check (the unanchored
`mkfs` pattern) fires first and the verdict is UNSAFE. -/
theorem static_only_iff_allow_false :
    isStaticallySafe "echo mkfs" = true ∧
    checkCommandSafety
      { ENABLE_SECAGENT := true, USE_STATIC_CHECKS_ONLY := true,
        USE_LOCAL_LLM := false, SECURITY_POLICY := "p" }
      [] [] "echo mkfs" = false := by
  constructor
  · decide
  · decide

/-- C4 (amended): with the agent enabled and static-only mode on, the
verdict is SAFE iff the command matches no deny pattern and matches at
least one allow pattern; in particular `ls -la` is SAFE and
`find / -name x` is UNSAFE. -/
theorem static_only_verdict (llm : Bool) (pol : String) (models : List String)
    (attempts : List (Option String)) (cmd : String) :
    checkCommandSafety
      { ENABLE_SECAGENT := true, USE_STATIC_CHECKS_ONLY := true,
        USE_LOCAL_LLM := llm, SECURITY_POLICY := pol }
      models attempts cmd
      = (!(isObviouslyUnsafeCmd cmd) && isStaticallySafe cmd) ∧
    checkCommandSafety
      { ENABLE_SECAGENT := true, USE_STATIC_CHECKS_ONLY := true,
        USE_LOCAL_LLM := llm, SECURITY_POLICY := pol }
      models attempts "ls -la" = true ∧
    checkCommandSafety
      { ENABLE_SECAGENT := true, USE_STATIC_CHECKS_ONLY := true,
        USE_LOCAL_LLM := llm, SECURITY_POLICY := pol }
      models attempts "find / -name x" = false := by
  refine ⟨?_, ?_, ?_⟩
  · by_cases h : isObviouslyUnsafeCmd cmd <;> simp [checkCommandSafety, h]
  · have h1 : isObviouslyUnsafeCmd "ls -la" = false := by decide
    have h2 : isStaticallySafe "ls -la" = true := by decide
    simp [checkCommandSafety, h1, h2]
  · have h1 : isObviouslyUnsafeCmd "find / -name x" = false := by decide
    have h2 : isStaticallySafe "find / -name x" = false := by decide
    simp [checkCommandSafety, h1, h2]

/-- C5: with the agent disabled, every command — deny-matching ones
included — is SAFE; the first gate of `checkCommandSafety` returns
before any pattern or classifier logic is reached. -/
theorem disabled_agent_all_safe (stat llm : Bool) (pol : String)
    (models : List String) (attempts : List (Option String)) (cmd : String) :
    checkCommandSafety
      { ENABLE_SECAGENT := false, USE_STATIC_CHECKS_ONLY := stat,
        USE_LOCAL_LLM := llm, SECURITY_POLICY := pol }
      models attempts cmd = true := by
  simp [checkCommandSafety]

/-- C6: on the classifier path (agent enabled, deny check passed, not
static-only, local LLM on, models discovered), three failed classifier
attempts make `checkCommandSafety` return exactly the static
allow-pattern verdict; the embedding is a total boolean function, so no
classifier failure escapes as an exception. -/
theorem classifier_exhaustion_falls_back (pol : String) (m : String)
    (ms : List String) (cmd : String)
    (hdeny : isObviouslyUnsafeCmd cmd = false) :
    checkCommandSafety
      { ENABLE_SECAGENT := true, USE_STATIC_CHECKS_ONLY := false,
        USE_LOCAL_LLM := true, SECURITY_POLICY := pol }
      (m :: ms) [none, none, none] cmd = isStaticallySafe cmd := by
  simp [checkCommandSafety, hdeny, runAttempts]

/-- Witness for C6 at `find / -name x` (no deny match): the fallback
verdict equals the static one. -/
theorem classifier_exhaustion_falls_back_witness :
    isObviouslyUnsafeCmd "find / -name x" = false ∧
    checkCommandSafety
      { ENABLE_SECAGENT := true, USE_STATIC_CHECKS_ONLY := false,
        USE_LOCAL_LLM := true, SECURITY_POLICY := "p" }
      ["llama2"] [none, none, none] "find / -name x"
      = isStaticallySafe "find / -name x" :=
  ⟨by decide,
   classifier_exhaustion_falls_back "p" "llama2" [] "find / -name x" (by decide)⟩

/-- C9: the claim says the fallback policy after a failed configuration
load is exactly `ENABLE_SECAGENT: false` with the policy text
`only listing is safe`.  The source's fallback policy text is
`Only 'ls' command is safe`, so the claim's literal content is false. -/
theorem fallback_policy_text_false :
    (secagentInit none).SECURITY_POLICY ≠ "only listing is safe" := by
  decide

/-- C9 (amended): when the configuration file is absent or fails to
parse, the policy becomes `ENABLE_SECAGENT: false` with policy text
`Only 'ls' command is safe` (the unset flags reading as not-true), and
with the agent disabled every subsequent evaluation returns SAFE. -/
theorem fallback_config_disabled (models : List String)
    (attempts : List (Option String)) (cmd : String) :
    secagentInit none
      = { ENABLE_SECAGENT := false, USE_STATIC_CHECKS_ONLY := false,
          USE_LOCAL_LLM := false,
          SECURITY_POLICY := "Only \x27ls\x27 command is safe" } ∧
    checkCommandSafety (secagentInit none) models attempts cmd = true := by
  exact ⟨rfl, by simp [checkCommandSafety, secagentInit, constructorFallbackConfig]⟩

/-! ## The checkpoint serialization round trip (C7) -/

/-- A `result` payload reads back from its own JSON value. -/
theorem decodeResult_encodeResult (r : CommandResult) :
    decodeResult (encodeResult r) = some r := rfl

/-- A history record reads back from its own JSON value, whether or not
it carries a result. -/
theorem decodeCommandInfo_encodeCommandInfo (c : CommandInfo) :
    decodeCommandInfo (encodeCommandInfo c) = some c := by
  cases c with
  | mk cmd t res => cases res <;> rfl

/-- A command list reads back element by element from its encoded form. -/
theorem decodeCommands_map_encode (l : List CommandInfo) :
    decodeCommands (l.map encodeCommandInfo) = some l := by
  induction l with
  | nil => rfl
  | cons c cs ih =>
      simp [decodeCommands, decodeCommandInfo_encodeCommandInfo, ih]

/-- A connection record reads back from its own JSON value. -/
theorem decodeConnectionInfo_encodeConnectionInfo (ci : ConnectionInfo) :
    decodeConnectionInfo (encodeConnectionInfo ci) = some ci := rfl

/-- C7: loading the JSON value `saveCheckpoint` writes yields a
checkpoint deep-equal to the original, for every well-formed
`SessionCheckpoint` — including an empty command list and an absent
`connectionInfo` (whose property `JSON.stringify` omits and whose
absence reads back as absent). -/
theorem checkpoint_roundtrip (cp : SessionCheckpoint) :
    decodeCheckpoint (encodeCheckpoint cp) = some cp := by
  cases cp with
  | mk ci cs =>
      cases ci with
      | none =>
          have h0 : decodeCheckpoint (encodeCheckpoint ⟨none, cs⟩)
              = (decodeCommands (cs.map encodeCommandInfo)).bind
                  (fun l => some ⟨none, l⟩) := rfl
          rw [h0, decodeCommands_map_encode]
          rfl
      | some c =>
          have h0 : decodeCheckpoint (encodeCheckpoint ⟨some c, cs⟩)
              = (decodeCommands (cs.map encodeCommandInfo)).bind
                  (fun l => some ⟨some c, l⟩) := rfl
          rw [h0, decodeCommands_map_encode]
          rfl
